import Mathlib

/-!
Shallow embedding of the air-traffic controller library (src/src/lib.rs).

The Rust `WeatherService` trait object is modelled as a fixed weather reading
carried by the controller: `check_weather` returns it, matching the tests'
constant-returning mock. `Vec<u8>` plane ids become `List Nat` (ids are only
compared for equality, never used arithmetically). The `unwrap` inside
`remove_plane` is modelled by an `Option` result: `none` is the panic.
The `usize` decrement `airport_capacity -= 1` is modelled by truncated `Nat`
subtraction; whenever `remove_plane` succeeds the removed list was nonempty.
-/

inductive Weather where
  | Clear
  | Cloudy
  | Sunny
  | Stormy
  | Raining
  | Snowing
  | Hailing
deriving DecidableEq, Repr

inductive ControllerResponse where
  | AcceptLanding
  | RejectLanding
  | Redirect
  | AllowTakeoff
  | RejectTakeoff
deriving DecidableEq, Repr

inductive PlaneState where
  | Landed
  | Airborn
deriving DecidableEq, Repr

structure Plane where
  id : Nat
  state : PlaneState
deriving DecidableEq, Repr

structure AirtrafficController where
  airport_max_capacity : Nat
  airport_capacity : Nat
  plane_ids : List Nat
  weather_reading : Weather × Int
deriving DecidableEq, Repr

namespace AirtrafficController

/-- Constructor `AirtrafficController::new`: capacity starts at the length of the initial
list, max capacity at 100. -/
def new (weather_service : Weather × Int) (initial_planes : List Nat) :
    AirtrafficController :=
  { airport_capacity := initial_planes.length
    airport_max_capacity := 100
    plane_ids := initial_planes
    weather_reading := weather_service }

/-- Method `check_weather`: queries the injected weather service. -/
def check_weather (self : AirtrafficController) : Weather × Int :=
  self.weather_reading

/-- Method `add_plane`: push the id and increment the occupancy count. -/
def add_plane (self : AirtrafficController) (id : Nat) : AirtrafficController :=
  { self with
    plane_ids := self.plane_ids ++ [id]
    airport_capacity := self.airport_capacity + 1 }

/-- Method `remove_plane`: remove the element at the position of the first occurrence
of `id` and decrement the count; `none` models the `unwrap` panic when the id
is absent. -/
def remove_plane (self : AirtrafficController) (id : Nat) :
    Option AirtrafficController :=
  match self.plane_ids.indexOf? id with
  | none => none
  | some i =>
      some { self with
             plane_ids := self.plane_ids.eraseIdx i
             airport_capacity := self.airport_capacity - 1 }

/-- Method `allow_landing`: weather gate, duplicate-id gate, capacity gate, accept. -/
def allow_landing (self : AirtrafficController) (plane : Plane) :
    ControllerResponse × AirtrafficController :=
  match self.check_weather with
  | (Weather.Stormy, _) => (ControllerResponse.RejectLanding, self)
  | (_, _) =>
    if self.plane_ids.contains plane.id then
      (ControllerResponse.RejectLanding, self)
    else if self.airport_capacity + 1 > self.airport_max_capacity then
      (ControllerResponse.Redirect, self)
    else
      (ControllerResponse.AcceptLanding, self.add_plane plane.id)

/-- Method `allow_takeoff`: weather gate, airborne gate, then removal (which can
panic, hence the `Option`). -/
def allow_takeoff (self : AirtrafficController) (plane : Plane) :
    Option (ControllerResponse × AirtrafficController) :=
  match self.check_weather with
  | (Weather.Stormy, _) => some (ControllerResponse.RejectTakeoff, self)
  | (_, _) =>
    match plane.state with
    | PlaneState.Airborn => some (ControllerResponse.RejectTakeoff, self)
    | PlaneState.Landed =>
      match self.remove_plane plane.id with
      | none => none
      | some c => some (ControllerResponse.AllowTakeoff, c)

/-- Method `has_plane`: membership via `position != None`. -/
def has_plane (self : AirtrafficController) (plane : Plane) : Bool :=
  (self.plane_ids.indexOf? plane.id).isSome

/-- Method `set_max_capacity`: overwrite the maximum capacity. -/
def set_max_capacity (self : AirtrafficController) (max : Nat) :
    AirtrafficController :=
  { self with airport_max_capacity := max }

end AirtrafficController

namespace Plane

/-- Method `Plane::request_takeoff`: on `RejectTakeoff` return it unchanged,
otherwise set own state to `Airborn` and return `AllowTakeoff`. The result
triple is (response, updated plane, updated controller); `none` propagates the
controller panic. -/
def request_takeoff (self : Plane) (controller : AirtrafficController) :
    Option (ControllerResponse × Plane × AirtrafficController) :=
  match controller.allow_takeoff self with
  | none => none
  | some (ControllerResponse.RejectTakeoff, c) =>
      some (ControllerResponse.RejectTakeoff, self, c)
  | some (_, c) =>
      some (ControllerResponse.AllowTakeoff,
            { self with state := PlaneState.Airborn }, c)

/-- Method `Plane::request_landing`: on `RejectLanding` or `Redirect` return it
unchanged, otherwise set own state to `Landed` and return `AcceptLanding`. -/
def request_landing (self : Plane) (controller : AirtrafficController) :
    ControllerResponse × Plane × AirtrafficController :=
  match controller.allow_landing self with
  | (ControllerResponse.RejectLanding, c) =>
      (ControllerResponse.RejectLanding, self, c)
  | (ControllerResponse.Redirect, c) =>
      (ControllerResponse.Redirect, self, c)
  | (_, c) =>
      (ControllerResponse.AcceptLanding,
       { self with state := PlaneState.Landed }, c)

end Plane

/-- C1: the method `allow_landing` decides in the precedence order
weather > duplicate id > capacity > accept: Stormy weather yields
`RejectLanding` before anything else (so a duplicate id during a storm still
reports `RejectLanding`); otherwise a present id yields `RejectLanding`;
otherwise `current_count + 1 > max_capacity` yields `Redirect`; otherwise the
id is appended, the count incremented, and `AcceptLanding` returned. -/
theorem allow_landing_precedence (c : AirtrafficController) (p : Plane) :
    c.allow_landing p =
      if c.check_weather.1 = Weather.Stormy then
        (ControllerResponse.RejectLanding, c)
      else if p.id ∈ c.plane_ids then
        (ControllerResponse.RejectLanding, c)
      else if c.airport_capacity + 1 > c.airport_max_capacity then
        (ControllerResponse.Redirect, c)
      else
        (ControllerResponse.AcceptLanding,
         { c with plane_ids := c.plane_ids ++ [p.id]
                  airport_capacity := c.airport_capacity + 1 }) := by
  unfold AirtrafficController.allow_landing AirtrafficController.add_plane
  rcases hw : c.check_weather with ⟨w, m⟩
  cases w <;> simp [hw, List.contains, List.elem_eq_mem]

/-- Auxiliary: `position` (modelled by `indexOf?`) finds nothing exactly when
the id is absent from the list. -/
theorem indexOf?_eq_none_iff_not_mem (l : List Nat) (a : Nat) :
    l.indexOf? a = none ↔ a ∉ l := by
  rw [List.indexOf?_eq_none_iff]
  constructor
  · intro h ha
    exact absurd (beq_self_eq_true a) (by simpa using h a ha)
  · intro h x hx
    simp only [beq_iff_eq]
    intro hxa
    exact h (hxa ▸ hx)

/-- Auxiliary: when the id is present, `remove_plane` succeeds and removes
exactly the first occurrence (`List.erase`), decrementing the count. -/
theorem remove_plane_of_mem (c : AirtrafficController) (i : Nat)
    (h : i ∈ c.plane_ids) :
    c.remove_plane i =
      some { c with plane_ids := c.plane_ids.erase i
                    airport_capacity := c.airport_capacity - 1 } := by
  unfold AirtrafficController.remove_plane
  rcases hidx : c.plane_ids.indexOf? i with _ | j
  · exact absurd h ((indexOf?_eq_none_iff_not_mem _ _).mp hidx)
  · have hj : c.plane_ids.indexOf i = j := by
      rw [List.indexOf_eq_indexOf?, hidx]
    simp only [Option.some.injEq]
    congr 1
    rw [← hj, List.eraseIdx_indexOf_eq_erase]

/-- Auxiliary: when the id is absent, `remove_plane` hits the `unwrap` panic. -/
theorem remove_plane_of_not_mem (c : AirtrafficController) (i : Nat)
    (h : i ∉ c.plane_ids) : c.remove_plane i = none := by
  unfold AirtrafficController.remove_plane
  rw [(indexOf?_eq_none_iff_not_mem _ _).mpr h]

/-- C2: with non-Stormy weather, the method `allow_takeoff` returns `RejectTakeoff` and
leaves the controller unchanged whenever the plane's own state is `Airborn`,
regardless of membership; and for a `Landed` plane whose id is present it
removes the id (first occurrence), decrements the count, and returns
`AllowTakeoff`. -/
theorem allow_takeoff_nonstormy (c : AirtrafficController) (p : Plane)
    (hw : c.check_weather.1 ≠ Weather.Stormy) :
    (p.state = PlaneState.Airborn →
      c.allow_takeoff p = some (ControllerResponse.RejectTakeoff, c)) ∧
    (p.state = PlaneState.Landed → p.id ∈ c.plane_ids →
      c.allow_takeoff p = some (ControllerResponse.AllowTakeoff,
        { c with plane_ids := c.plane_ids.erase p.id
                 airport_capacity := c.airport_capacity - 1 })) := by
  unfold AirtrafficController.allow_takeoff
  rcases hcw : c.check_weather with ⟨w, m⟩
  rw [hcw] at hw
  constructor
  · intro hs
    cases w <;> simp_all
  · intro hs hmem
    rw [hs]
    cases w <;> simp_all [remove_plane_of_mem c p.id hmem]

/-- Witness for C2 at a concrete state: one plane with id 1, clear weather. -/
theorem allow_takeoff_nonstormy_witness :
    (AirtrafficController.new (Weather.Clear, 10) [1]).allow_takeoff
        { id := 1, state := PlaneState.Landed } =
      some (ControllerResponse.AllowTakeoff,
        { AirtrafficController.new (Weather.Clear, 10) [1] with
          plane_ids :=
            (AirtrafficController.new (Weather.Clear, 10) [1]).plane_ids.erase 1
          airport_capacity :=
            (AirtrafficController.new (Weather.Clear, 10) [1]).airport_capacity
              - 1 }) :=
  (allow_takeoff_nonstormy (AirtrafficController.new (Weather.Clear, 10) [1])
      { id := 1, state := PlaneState.Landed } (by decide)).2 rfl (by decide)

/-- C4: when the weather reads Stormy, `request_landing` returns
`RejectLanding` and `request_takeoff` returns `RejectTakeoff`, and in both
cases the plane's state and the controller's list and count are unchanged,
regardless of capacity, duplicate-id status or plane state. -/
theorem stormy_rejects_all (c : AirtrafficController) (p : Plane)
    (hw : c.check_weather.1 = Weather.Stormy) :
    p.request_landing c = (ControllerResponse.RejectLanding, p, c) ∧
    p.request_takeoff c = some (ControllerResponse.RejectTakeoff, p, c) := by
  rcases hcw : c.check_weather with ⟨w, m⟩
  rw [hcw] at hw
  simp only at hw
  subst hw
  constructor
  · unfold Plane.request_landing AirtrafficController.allow_landing
    rw [hcw]
  · unfold Plane.request_takeoff AirtrafficController.allow_takeoff
    rw [hcw]

/-- Witness for C4: a landed plane with id 1 present during a storm. -/
theorem stormy_rejects_all_witness :
    Plane.request_landing { id := 1, state := PlaneState.Landed }
        (AirtrafficController.new (Weather.Stormy, -10) [1]) =
      (ControllerResponse.RejectLanding,
       { id := 1, state := PlaneState.Landed },
       AirtrafficController.new (Weather.Stormy, -10) [1]) ∧
    Plane.request_takeoff { id := 1, state := PlaneState.Landed }
        (AirtrafficController.new (Weather.Stormy, -10) [1]) =
      some (ControllerResponse.RejectTakeoff,
            { id := 1, state := PlaneState.Landed },
            AirtrafficController.new (Weather.Stormy, -10) [1]) :=
  stormy_rejects_all (AirtrafficController.new (Weather.Stormy, -10) [1])
    { id := 1, state := PlaneState.Landed } rfl

/-- C5: under the precondition that a `Landed` requester's id is present, the
removal inside `allow_takeoff` always succeeds (the `unwrap` failure branch is
unreachable, so the result is defined); without it — a `Landed` plane whose id
is absent, under non-Stormy weather — the evaluation has no defined outcome
(the code panics, modelled as `none`). -/
theorem takeoff_removal_hazard (c : AirtrafficController) (p : Plane) :
    ((p.state = PlaneState.Landed → p.id ∈ c.plane_ids) →
      (c.allow_takeoff p).isSome = true) ∧
    (p.state = PlaneState.Landed → p.id ∉ c.plane_ids →
      c.check_weather.1 ≠ Weather.Stormy → c.allow_takeoff p = none) := by
  constructor
  · intro hpre
    unfold AirtrafficController.allow_takeoff
    rcases hcw : c.check_weather with ⟨w, m⟩
    rcases hs : p.state with _ | _
    · cases w <;>
        simp_all [remove_plane_of_mem c p.id (hpre hs), Option.isSome]
    · cases w <;> simp
  · intro hs hmem hw
    unfold AirtrafficController.allow_takeoff
    rcases hcw : c.check_weather with ⟨w, m⟩
    rw [hcw] at hw
    rw [hs]
    cases w <;> simp_all [remove_plane_of_not_mem c p.id hmem]

/-- Witness for C5: grounded plane with id 1 at an empty airport in clear
weather hits the panic branch. -/
theorem takeoff_removal_hazard_witness :
    (AirtrafficController.new (Weather.Clear, 10) []).allow_takeoff
        { id := 1, state := PlaneState.Landed } = none :=
  (takeoff_removal_hazard (AirtrafficController.new (Weather.Clear, 10) [])
      { id := 1, state := PlaneState.Landed }).2 rfl (by decide) (by decide)

/-- C6: the method `request_takeoff` sets the plane's state to `Airborn` exactly when the
decision is not `RejectTakeoff` and leaves it unchanged otherwise;
`request_landing` sets it to `Landed` exactly when the decision is
`AcceptLanding` and leaves it unchanged otherwise; and a plane with id 1 in
state `Landed` at an airport whose list is exactly `[1]`, under non-Stormy
weather, gets `AllowTakeoff`, becomes `Airborn`, and is no longer reported by
`has_plane`. -/
theorem request_state_transitions (c : AirtrafficController) (p : Plane) :
    (∀ r p' c', p.request_takeoff c = some (r, p', c') →
      (r ≠ ControllerResponse.RejectTakeoff →
        p' = { p with state := PlaneState.Airborn }) ∧
      (r = ControllerResponse.RejectTakeoff → p' = p)) ∧
    (∀ r p' c', p.request_landing c = (r, p', c') →
      (r = ControllerResponse.AcceptLanding →
        p' = { p with state := PlaneState.Landed }) ∧
      (r ≠ ControllerResponse.AcceptLanding → p' = p)) ∧
    (∀ (mc : Nat) (w : Weather × Int), w.1 ≠ Weather.Stormy →
      Plane.request_takeoff { id := 1, state := PlaneState.Landed }
          { airport_max_capacity := mc, airport_capacity := 1,
            plane_ids := [1], weather_reading := w } =
        some (ControllerResponse.AllowTakeoff,
              { id := 1, state := PlaneState.Airborn },
              { airport_max_capacity := mc, airport_capacity := 0,
                plane_ids := [], weather_reading := w }) ∧
      AirtrafficController.has_plane
          { airport_max_capacity := mc, airport_capacity := 0,
            plane_ids := [], weather_reading := w }
          { id := 1, state := PlaneState.Airborn } = false) := by
  refine ⟨?_, ?_, ?_⟩
  · intro r p' c' heq
    unfold Plane.request_takeoff at heq
    rcases hat : c.allow_takeoff p with _ | ⟨r₀, c₀⟩
    · rw [hat] at heq
      exact absurd heq (by simp)
    · rw [hat] at heq
      cases r₀ <;>
        simp only [Option.some.injEq, Prod.mk.injEq] at heq <;>
        obtain ⟨hr, hp, hc⟩ := heq <;>
        subst hr <;> subst hp <;>
        exact ⟨fun h => by simp_all, fun h => by simp_all⟩
  · intro r p' c' heq
    unfold Plane.request_landing at heq
    rcases hal : c.allow_landing p with ⟨r₀, c₀⟩
    rw [hal] at heq
    cases r₀ <;>
      simp only [Prod.mk.injEq] at heq <;>
      obtain ⟨hr, hp, hc⟩ := heq <;>
      subst hr <;> subst hp <;>
      exact ⟨fun h => by simp_all, fun h => by simp_all⟩
  · intro mc w hw
    rcases w with ⟨wc, m⟩
    simp only at hw
    constructor
    · unfold Plane.request_takeoff AirtrafficController.allow_takeoff
        AirtrafficController.check_weather AirtrafficController.remove_plane
      cases wc <;> simp_all [List.indexOf?_cons]
    · rfl

/-- Witness for C6: the takeoff round-trip at max capacity 100 and clear
weather. -/
theorem request_state_transitions_witness :
    Plane.request_takeoff { id := 1, state := PlaneState.Landed }
        { airport_max_capacity := 100, airport_capacity := 1,
          plane_ids := [1], weather_reading := (Weather.Clear, 10) } =
      some (ControllerResponse.AllowTakeoff,
            { id := 1, state := PlaneState.Airborn },
            { airport_max_capacity := 100, airport_capacity := 0,
              plane_ids := [], weather_reading := (Weather.Clear, 10) }) ∧
    AirtrafficController.has_plane
        { airport_max_capacity := 100, airport_capacity := 0,
          plane_ids := [], weather_reading := (Weather.Clear, 10) }
        { id := 1, state := PlaneState.Airborn } = false :=
  (request_state_transitions (AirtrafficController.new (Weather.Clear, 10) [])
      { id := 1, state := PlaneState.Landed }).2.2 100
    (Weather.Clear, 10) (by decide)

/-- C7: a newly constructed controller has max capacity 100 for every initial
list, and `set_max_capacity v` sets exactly `v` with no validation, leaving
the count and the list unchanged. -/
theorem capacity_administration (w : Weather × Int) (l : List Nat)
    (c : AirtrafficController) (v : Nat) :
    (AirtrafficController.new w l).airport_max_capacity = 100 ∧
    (c.set_max_capacity v).airport_max_capacity = v ∧
    (c.set_max_capacity v).airport_capacity = c.airport_capacity ∧
    (c.set_max_capacity v).plane_ids = c.plane_ids :=
  ⟨rfl, rfl, rfl, rfl⟩

/-- C8: the constructor sets the count to the length of the initial list with
no validation: a 101-element list starts above the max capacity of 100, and a
duplicated id makes the count exceed the number of distinct ids. -/
theorem new_performs_no_validation (w : Weather × Int) (l : List Nat) :
    (AirtrafficController.new w l).airport_capacity = l.length ∧
    (AirtrafficController.new w (List.replicate 101 0)).airport_capacity >
      (AirtrafficController.new w (List.replicate 101 0)).airport_max_capacity ∧
    (AirtrafficController.new w [1, 1]).airport_capacity >
      (AirtrafficController.new w [1, 1]).plane_ids.dedup.length := by
  refine ⟨rfl, ?_, ?_⟩ <;> simp [AirtrafficController.new]

/-- C9: the landing decision and resulting controller state do not depend on
the requesting plane's flight state; in particular a `Landed` plane whose id
is absent is accepted exactly as an `Airborn` one would be. -/
theorem allow_landing_ignores_plane_state (c : AirtrafficController) (i : Nat)
    (s₁ s₂ : PlaneState) :
    c.allow_landing { id := i, state := s₁ } =
      c.allow_landing { id := i, state := s₂ } ∧
    (c.check_weather.1 ≠ Weather.Stormy → i ∉ c.plane_ids →
      c.airport_capacity + 1 ≤ c.airport_max_capacity →
      (c.allow_landing { id := i, state := PlaneState.Landed }).1 =
        ControllerResponse.AcceptLanding) := by
  constructor
  · rfl
  · intro hw hmem hcap
    unfold AirtrafficController.allow_landing
    rcases hcw : c.check_weather with ⟨wc, m⟩
    rw [hcw] at hw
    cases wc <;>
      simp_all [List.contains, List.elem_eq_mem, Nat.not_lt.mpr hcap]

/-- Witness for C9: an empty airport in clear weather accepts the landing of a
plane already marked `Landed`. -/
theorem allow_landing_ignores_plane_state_witness :
    ((AirtrafficController.new (Weather.Clear, 10) []).allow_landing
        { id := 1, state := PlaneState.Landed }).1 =
      ControllerResponse.AcceptLanding :=
  (allow_landing_ignores_plane_state
      (AirtrafficController.new (Weather.Clear, 10) []) 1
      PlaneState.Landed PlaneState.Airborn).2 (by decide) (by decide)
    (by decide)

/-- Auxiliary: every outcome of `allow_landing` either leaves the controller
unchanged or (when the id was absent) appends the id and increments the
count. -/
theorem allow_landing_out (c : AirtrafficController) (p : Plane)
    (r : ControllerResponse) (c' : AirtrafficController)
    (h : c.allow_landing p = (r, c')) :
    c' = c ∨ (p.id ∉ c.plane_ids ∧ c' = c.add_plane p.id) := by
  unfold AirtrafficController.allow_landing at h
  rcases hcw : c.check_weather with ⟨w, m⟩
  rw [hcw] at h
  by_cases hmem : p.id ∈ c.plane_ids
  · cases w <;>
      · simp [List.contains, List.elem_eq_mem, hmem] at h
        exact Or.inl h.2.symm
  · by_cases hcap : c.airport_capacity + 1 > c.airport_max_capacity
    · cases w <;>
        · simp [List.contains, List.elem_eq_mem, hmem, hcap] at h
          exact Or.inl h.2.symm
    · cases w <;>
        first
        | (simp [List.contains, List.elem_eq_mem, hmem, hcap] at h
           exact Or.inl h.2.symm)
        | (simp [List.contains, List.elem_eq_mem, hmem, hcap] at h
           exact Or.inr ⟨hmem, h.2.symm⟩)

/-- Auxiliary: every defined outcome of `allow_takeoff` either leaves the
controller unchanged or (when the id was present) erases its first occurrence
and decrements the count. -/
theorem allow_takeoff_out (c : AirtrafficController) (p : Plane)
    (r : ControllerResponse) (c' : AirtrafficController)
    (h : c.allow_takeoff p = some (r, c')) :
    c' = c ∨ (p.id ∈ c.plane_ids ∧
      c' = { c with plane_ids := c.plane_ids.erase p.id
                    airport_capacity := c.airport_capacity - 1 }) := by
  unfold AirtrafficController.allow_takeoff at h
  rcases hcw : c.check_weather with ⟨w, m⟩
  rw [hcw] at h
  rcases hps : p.state with _ | _
  · rw [hps] at h
    by_cases hmem : p.id ∈ c.plane_ids
    · cases w <;>
        simp_all [remove_plane_of_mem c p.id hmem]
    · cases w <;>
        simp_all [remove_plane_of_not_mem c p.id hmem]
  · rw [hps] at h
    cases w <;> (simp at h; exact Or.inl h.2.symm)

/-- Controller states reachable from a construction whose initial id list is
duplicate-free, closed under landing and takeoff evaluations (takeoff only
when it has a defined outcome) and capacity overrides; `has_plane` is a pure
read and does not change the state. -/
inductive Reachable : AirtrafficController → Prop where
  | init (w : Weather × Int) (l : List Nat) (hl : l.Nodup) :
      Reachable (AirtrafficController.new w l)
  | landing (c : AirtrafficController) (p : Plane) (r : ControllerResponse)
      (c' : AirtrafficController) :
      Reachable c → c.allow_landing p = (r, c') → Reachable c'
  | takeoff (c : AirtrafficController) (p : Plane) (r : ControllerResponse)
      (c' : AirtrafficController) :
      Reachable c → c.allow_takeoff p = some (r, c') → Reachable c'
  | admin (c : AirtrafficController) (v : Nat) :
      Reachable c → Reachable (c.set_max_capacity v)

/-- Auxiliary invariant: every reachable state has a duplicate-free plane list
whose length is the occupancy count. -/
theorem reachable_nodup_count (c : AirtrafficController) (h : Reachable c) :
    c.plane_ids.Nodup ∧ c.airport_capacity = c.plane_ids.length := by
  induction h with
  | init w l hl => exact ⟨hl, rfl⟩
  | landing c p r c' _ heq ih =>
      rcases allow_landing_out c p r c' heq with hsame | ⟨hmem, hnew⟩
      · rw [hsame]; exact ih
      · rw [hnew]
        unfold AirtrafficController.add_plane
        refine ⟨?_, ?_⟩
        · simpa using (List.Nodup.concat hmem ih.1)
        · simp [ih.2]
  | takeoff c p r c' _ heq ih =>
      rcases allow_takeoff_out c p r c' heq with hsame | ⟨hmem, hnew⟩
      · rw [hsame]; exact ih
      · rw [hnew]
        refine ⟨ih.1.erase p.id, ?_⟩
        have := List.length_erase_add_one hmem
        simp only []
        omega
  | admin c v _ ih => exact ih

/-- C3 counterexample: constructing from the duplicated list [1, 1] yields
count 2 while only one distinct aircraft id is present, so the claimed
invariant fails at construction for arbitrary initial lists. -/
theorem count_eq_card_counterexample :
    (AirtrafficController.new (Weather.Clear, 10) [1, 1]).airport_capacity ≠
      ((AirtrafficController.new
          (Weather.Clear, 10) [1, 1]).plane_ids.dedup.length) := by
  decide

/-- C3 (amended): for every controller state reachable from a construction
with a duplicate-free initial list, through any sequence of landing
evaluations, defined takeoff evaluations, membership queries, and capacity
overrides, the occupancy count equals the number of distinct present ids. -/
theorem reachable_count_eq_card (c : AirtrafficController) (h : Reachable c) :
    c.airport_capacity = c.plane_ids.dedup.length := by
  obtain ⟨hnd, hlen⟩ := reachable_nodup_count c h
  rw [hlen, List.dedup_eq_self.mpr hnd]

/-- Witness for C3: a freshly constructed one-plane controller. -/
theorem reachable_count_eq_card_witness :
    (AirtrafficController.new (Weather.Clear, 10) [1]).airport_capacity =
      (AirtrafficController.new
        (Weather.Clear, 10) [1]).plane_ids.dedup.length :=
  reachable_count_eq_card (AirtrafficController.new (Weather.Clear, 10) [1])
    (Reachable.init (Weather.Clear, 10) [1] (by decide))

/-- C10 counterexample: starting from the list [1, 1], the successful takeoff
for id 1 leaves `has_plane` true but a count of 1 with one distinct present
id — equal to the distinct count, not one greater as claimed. -/
theorem duplicate_takeoff_counterexample :
    (AirtrafficController.new (Weather.Clear, 10) [1, 1]).allow_takeoff
        { id := 1, state := PlaneState.Landed } =
      some (ControllerResponse.AllowTakeoff,
        { airport_max_capacity := 100, airport_capacity := 1,
          plane_ids := [1], weather_reading := (Weather.Clear, 10) }) ∧
    AirtrafficController.has_plane
        { airport_max_capacity := 100, airport_capacity := 1,
          plane_ids := [1], weather_reading := (Weather.Clear, 10) }
        { id := 1, state := PlaneState.Landed } = true ∧
    ¬ (AirtrafficController.airport_capacity
          { airport_max_capacity := 100, airport_capacity := 1,
            plane_ids := [1], weather_reading := (Weather.Clear, 10) } =
        (AirtrafficController.plane_ids
          { airport_max_capacity := 100, airport_capacity := 1,
            plane_ids := [1], weather_reading := (Weather.Clear, 10) }
          ).dedup.length + 1) := by
  decide

/-- C10 (amended): the removal step removes only the first occurrence of the
id; with initial list [1, 1] and non-Stormy weather, a successful takeoff for
id 1 still leaves `has_plane` true for it, and the count — one greater than
the number of distinct present ids before the takeoff — becomes equal to the
number of distinct present ids after it. -/
theorem duplicate_id_first_occurrence (c : AirtrafficController)
    (w : Weather × Int) (i : Nat) (hi : i ∈ c.plane_ids)
    (hw : w.1 ≠ Weather.Stormy) :
    c.remove_plane i =
      some { c with plane_ids := c.plane_ids.erase i
                    airport_capacity := c.airport_capacity - 1 } ∧
    (AirtrafficController.new w [1, 1]).airport_capacity =
      (AirtrafficController.new w [1, 1]).plane_ids.dedup.length + 1 ∧
    (AirtrafficController.new w [1, 1]).allow_takeoff
        { id := 1, state := PlaneState.Landed } =
      some (ControllerResponse.AllowTakeoff,
        { airport_max_capacity := 100, airport_capacity := 1,
          plane_ids := [1], weather_reading := w }) ∧
    AirtrafficController.has_plane
        { airport_max_capacity := 100, airport_capacity := 1,
          plane_ids := [1], weather_reading := w }
        { id := 1, state := PlaneState.Landed } = true ∧
    AirtrafficController.airport_capacity
        { airport_max_capacity := 100, airport_capacity := 1,
          plane_ids := [1], weather_reading := w } =
      (AirtrafficController.plane_ids
        { airport_max_capacity := 100, airport_capacity := 1,
          plane_ids := [1], weather_reading := w }).dedup.length := by
  refine ⟨remove_plane_of_mem c i hi, by simp [AirtrafficController.new], ?_,
    rfl, rfl⟩
  rcases w with ⟨wc, m⟩
  simp only at hw
  unfold AirtrafficController.allow_takeoff AirtrafficController.remove_plane
    AirtrafficController.check_weather AirtrafficController.new
  cases wc <;> simp_all [List.indexOf?_cons]

/-- Witness for C10: the duplicate-survival takeoff at clear weather. -/
theorem duplicate_id_first_occurrence_witness :
    (AirtrafficController.new (Weather.Clear, 10) [1, 1]).allow_takeoff
        { id := 1, state := PlaneState.Landed } =
      some (ControllerResponse.AllowTakeoff,
        { airport_max_capacity := 100, airport_capacity := 1,
          plane_ids := [1], weather_reading := (Weather.Clear, 10) }) :=
  (duplicate_id_first_occurrence
      (AirtrafficController.new (Weather.Clear, 10) [2]) (Weather.Clear, 10)
      2 (by decide) (by decide)).2.2.1
